import Mathlib

/-!
# Verification of the banzai/pylcogt calibration-stacking core

Shallow embedding of the calibration-stacking scheduler, the stacking task,
the calibration-image catalog layer (`src/pylcogt/dbs.py`), the telescope
lookup used by the image constructor (`src/pylcogt/utils/images.py`), and the
header-sanity stage (`src/banzai/qc/header_checker.py`).

The scheduler and task bodies (`banzai/celery.py`) and the block filter
(`banzai/utils/observation_utils.py`) are not among the repository files
(only their tests under `src/banzai/tests/` are), so those operations are
modelled from the specification text, as marked in their doc comments.
Timestamps are modelled as integers (epoch seconds); database tables as
lists of record structures, in insertion order; Python exceptions as
`Option`/`Except` results.
-/

/-- A configuration entry of an observation block request. Only the `type`
field matters to the block filter; it is kept as `ctype`. -/
structure Configuration where
  ctype : String
  deriving Repr, DecidableEq

/-- An observation block as returned by the observation portal. `blockEnd`
models the `end` timestamp in epoch seconds. `configurations` is `none` for
a malformed block that is missing its configuration list. -/
structure ObservationBlock where
  site : String
  start : Int
  blockEnd : Int
  configurations : Option (List Configuration)
  deriving Repr, DecidableEq

/-- Modelled from the spec: `filter_calibration_blocks_for_type` of
`banzai/utils/observation_utils.py` is not a repository file. Per spec 4.1
the filter returns the subset of blocks containing at least one
configuration whose `type` field equals `frame_type`, preserving input
order; a block with a missing or empty configuration list is treated as
non-matching (a total function, so nothing can be raised). -/
def filter_calibration_blocks_for_type (blocks : List ObservationBlock)
    (frame_type : String) : List ObservationBlock :=
  blocks.filter fun b => (b.configurations.getD []).any fun c => c.ctype == frame_type

/-- The matching predicate of the block filter, for readability. -/
def block_matches_type (b : ObservationBlock) (frame_type : String) : Bool :=
  (b.configurations.getD []).any fun c => c.ctype == frame_type

theorem filter_blocks_eq_filter (blocks : List ObservationBlock) (frame_type : String) :
    filter_calibration_blocks_for_type blocks frame_type
      = blocks.filter fun b => block_matches_type b frame_type := rfl

/-- C4: for every list of blocks and frame type, the block filter returns
exactly the blocks having at least one configuration of that type, as a
sublist of the input (hence preserving relative order), treats blocks with
missing or empty configuration lists as non-matching, and is idempotent. -/
theorem filter_blocks_spec (B : List ObservationBlock) (T : String) :
    (filter_calibration_blocks_for_type B T).Sublist B
    ∧ (∀ b, b ∈ filter_calibration_blocks_for_type B T
        ↔ b ∈ B ∧ block_matches_type b T = true)
    ∧ (∀ b ∈ filter_calibration_blocks_for_type B T,
        b.configurations ≠ none ∧ b.configurations ≠ some [])
    ∧ filter_calibration_blocks_for_type (filter_calibration_blocks_for_type B T) T
        = filter_calibration_blocks_for_type B T := by
  refine ⟨List.filter_sublist B, fun b => ?_, fun b hb => ?_, ?_⟩
  · simp [filter_blocks_eq_filter, List.mem_filter]
  · rw [filter_blocks_eq_filter, List.mem_filter] at hb
    rcases hb with ⟨-, hmatch⟩
    unfold block_matches_type at hmatch
    rcases hcfg : b.configurations with - | cfgs
    · rw [hcfg] at hmatch; simp at hmatch
    · rw [hcfg] at hmatch
      rcases cfgs with - | ⟨c, cs⟩
      · simp at hmatch
      · exact ⟨by simp, by simp⟩
  · simp only [filter_blocks_eq_filter, List.filter_filter]
    simp

/-- An active instrument at a site, as the instrument registry returns it. -/
structure Instrument where
  id : Nat
  site : String
  camera : String
  deriving Repr, DecidableEq

/-- The scheduler configuration: the recognized calibration frame types and
the per-type stacking delay in seconds (an association list, as
`CALIBRATION_STACK_DELAYS` is a dict keyed by frame type). -/
structure SchedContext where
  calibration_image_types : List String
  calibration_stack_delays : List (String × Int)
  deriving Repr, DecidableEq

/-- The configured per-type delay; 0 for a type with no configured entry. -/
def lookup_delay (ctx : SchedContext) (frame_type : String) : Int :=
  (ctx.calibration_stack_delays.lookup frame_type).getD 0

/-- A stacking task as enqueued (`stack_calibrations.apply_async` arguments
plus the countdown). -/
structure StackTask where
  min_date : Int
  max_date : Int
  instrument_id : Nat
  frame_type : String
  blocks : List ObservationBlock
  countdown : Int
  deriving Repr, DecidableEq

/-- The maximum end-time among a list of blocks (meaningful for a nonempty
list; the scheduler only evaluates it on nonempty filtered lists). -/
def latest_block_end : List ObservationBlock → Int
  | [] => 0
  | [b] => b.blockEnd
  | b :: b2 :: rest => max b.blockEnd (latest_block_end (b2 :: rest))

/-- Modelled from the spec: the body of `schedule_calibration_stacking`
(`banzai/celery.py` is not a repository file) iterating over the configured
calibration frame types, per spec 4.2: filter the blocks to the type; skip
the type when the filtered list is empty; otherwise enqueue, for each active
instrument, one task carrying the window, the instrument id, the type and
the filtered blocks, with countdown `max 0 (latest_block_end + delay - now)`. -/
def schedule_for_types (types : List String) (ctx : SchedContext)
    (instruments : List Instrument) (blocks : List ObservationBlock)
    (min_date max_date now : Int) : List StackTask :=
  match types with
  | [] => []
  | frame_type :: rest =>
    let filtered := filter_calibration_blocks_for_type blocks frame_type
    (if filtered.isEmpty then []
     else
       instruments.map fun inst =>
         { min_date := min_date, max_date := max_date, instrument_id := inst.id,
           frame_type := frame_type, blocks := filtered,
           countdown := max 0 (latest_block_end filtered + lookup_delay ctx frame_type - now) })
    ++ schedule_for_types rest ctx instruments blocks min_date max_date now

/-- Modelled from the spec: `schedule_calibration_stacking(site, context,
min_date, max_date)`. The two external calls (active instruments at the
site, observation blocks overlapping the window) are injected as the
`instruments` and `blocks` arguments; `now` is the current time. -/
def schedule_calibration_stacking (ctx : SchedContext)
    (instruments : List Instrument) (blocks : List ObservationBlock)
    (min_date max_date now : Int) : List StackTask :=
  schedule_for_types ctx.calibration_image_types ctx instruments blocks min_date max_date now

theorem latest_block_end_mem (bs : List ObservationBlock) (hne : bs ≠ []) :
    ∃ b ∈ bs, latest_block_end bs = b.blockEnd := by
  induction bs with
  | nil => exact absurd rfl hne
  | cons b rest ih =>
    rcases rest with - | ⟨b2, rest2⟩
    · exact ⟨b, List.mem_singleton_self b, rfl⟩
    · rcases ih (by simp) with ⟨bm, hbm, hlat⟩
      by_cases hle : latest_block_end (b2 :: rest2) ≤ b.blockEnd
      · exact ⟨b, List.mem_cons_self b _, by
          show max b.blockEnd (latest_block_end (b2 :: rest2)) = b.blockEnd
          exact max_eq_left hle⟩
      · refine ⟨bm, List.mem_cons_of_mem b hbm, ?_⟩
        show max b.blockEnd (latest_block_end (b2 :: rest2)) = bm.blockEnd
        rw [max_eq_right (le_of_not_le hle), hlat]

theorem latest_block_end_le (bs : List ObservationBlock) (m : Int)
    (hne : bs ≠ []) (h : ∀ b ∈ bs, b.blockEnd ≤ m) :
    latest_block_end bs ≤ m := by
  rcases latest_block_end_mem bs hne with ⟨b, hb, hlat⟩
  rw [hlat]; exact h b hb

/-- Tasks scheduled for a frame type absent from the remaining type list do
not appear in the output of `schedule_for_types`. -/
theorem schedule_for_types_filter_not_mem (types : List String) (ctx : SchedContext)
    (instruments : List Instrument) (blocks : List ObservationBlock)
    (min_date max_date now : Int) (frame_type : String)
    (hT : frame_type ∉ types) :
    (schedule_for_types types ctx instruments blocks min_date max_date now).filter
      (fun t => t.frame_type == frame_type) = [] := by
  induction types with
  | nil => rfl
  | cons T rest ih =>
    have hTne : T ≠ frame_type := fun h => hT (h ▸ List.mem_cons_self T rest)
    have hTrest : frame_type ∉ rest := fun h => hT (List.mem_cons_of_mem T h)
    show (((if (filter_calibration_blocks_for_type blocks T).isEmpty then []
        else instruments.map _) ++ _).filter _) = []
    rw [List.filter_append, ih hTrest, List.append_nil]
    split
    · rfl
    · rw [List.filter_eq_nil_iff]
      intro t ht
      rcases List.mem_map.mp ht with ⟨inst, -, rfl⟩
      simpa using hTne

/-- The tasks of frame type `frame_type` produced by `schedule_for_types`
when `frame_type` occurs once in the (duplicate-free) type list: none when
the filtered block list is empty, otherwise one per instrument in registry
order, each carrying the filtered blocks and the countdown of spec 4.2. -/
theorem schedule_for_types_filter_eq (types : List String) (ctx : SchedContext)
    (instruments : List Instrument) (blocks : List ObservationBlock)
    (min_date max_date now : Int) (frame_type : String)
    (hnd : types.Nodup) (hT : frame_type ∈ types) :
    (schedule_for_types types ctx instruments blocks min_date max_date now).filter
        (fun t => t.frame_type == frame_type)
      = (if (filter_calibration_blocks_for_type blocks frame_type).isEmpty then []
         else
           instruments.map fun inst =>
             { min_date := min_date, max_date := max_date, instrument_id := inst.id,
               frame_type := frame_type,
               blocks := filter_calibration_blocks_for_type blocks frame_type,
               countdown := max 0 (latest_block_end
                   (filter_calibration_blocks_for_type blocks frame_type)
                 + lookup_delay ctx frame_type - now) }) := by
  induction types with
  | nil => exact absurd hT (List.not_mem_nil frame_type)
  | cons T rest ih =>
    show (((if (filter_calibration_blocks_for_type blocks T).isEmpty then []
        else instruments.map _) ++ _).filter _) = _
    rw [List.filter_append]
    rcases List.mem_cons.mp hT with rfl | hTrest
    · rw [schedule_for_types_filter_not_mem rest ctx instruments blocks min_date max_date now
        _ (List.Nodup.not_mem hnd), List.append_nil]
      split
      · rfl
      · rw [List.filter_eq_self]
        intro t ht
        rcases List.mem_map.mp ht with ⟨inst, -, rfl⟩
        simp
    · have hTne : T ≠ frame_type := by
        rintro rfl
        exact List.Nodup.not_mem hnd hTrest
      rw [ih (List.Nodup.of_cons hnd) hTrest]
      have hzero : ((if (filter_calibration_blocks_for_type blocks T).isEmpty then ([] : List StackTask)
          else instruments.map fun inst =>
            { min_date := min_date, max_date := max_date, instrument_id := inst.id,
              frame_type := T, blocks := filter_calibration_blocks_for_type blocks T,
              countdown := max 0 (latest_block_end (filter_calibration_blocks_for_type blocks T)
                + lookup_delay ctx T - now) }).filter
          (fun t => t.frame_type == frame_type)) = [] := by
        split
        · rfl
        · rw [List.filter_eq_nil_iff]
          intro t ht
          rcases List.mem_map.mp ht with ⟨inst, -, rfl⟩
          simpa using hTne
      rw [hzero, List.nil_append]

theorem filter_map_eq {α β : Type} (f : α → β) (p : β → Bool) (l : List α) :
    (l.map f).filter p = (l.filter fun a => p (f a)).map f := by
  induction l with
  | nil => rfl
  | cons a l ih =>
    by_cases h : p (f a) = true
    · simp [h, ih]
    · simp [List.filter_cons, h, ih]

theorem filter_by_id_singleton (instruments : List Instrument) (inst : Instrument)
    (hids : (instruments.map Instrument.id).Nodup) (hmem : inst ∈ instruments) :
    instruments.filter (fun i => i.id == inst.id) = [inst] := by
  induction instruments with
  | nil => exact absurd hmem (List.not_mem_nil inst)
  | cons j rest ih =>
    rw [List.map_cons, List.nodup_cons] at hids
    rcases hids with ⟨hj, hrest⟩
    rcases List.mem_cons.mp hmem with rfl | hmemrest
    · rw [List.filter_cons_of_pos (by simp)]
      congr 1
      rw [List.filter_eq_nil_iff]
      intro i hi hbeq
      have hid : i.id = inst.id := eq_of_beq (by simpa using hbeq)
      exact hj (hid ▸ List.mem_map_of_mem Instrument.id hi)
    · have hne : (j.id == inst.id) = false := by
        rw [beq_eq_false_iff_ne]
        intro h
        exact hj (h ▸ List.mem_map_of_mem Instrument.id hmemrest)
      rw [List.filter_cons, if_neg (by simp [hne])]
      exact ih hrest hmemrest

/-- C1 (amended): for every context, window and current time, and for each
calibration frame type (of the duplicate-free configured list) whose
filtered block list is nonempty, the scheduler enqueues for each active
instrument (with duplicate-free ids) exactly one stacking task, carrying the
window, the instrument id, the type and the filtered blocks, whose countdown
is `max 0 (latest_block_end + type_delay - now)`; in particular the
countdown is 0 when every filtered block ends at least `type_delay` seconds
in the past, and is `(latest_block_end - now) + type_delay` when the latest
filtered block ends in the future. -/
theorem schedule_countdown_formula (ctx : SchedContext)
    (instruments : List Instrument) (blocks : List ObservationBlock)
    (min_date max_date now : Int) (frame_type : String) (inst : Instrument)
    (htypes : ctx.calibration_image_types.Nodup)
    (hids : (instruments.map Instrument.id).Nodup)
    (hT : frame_type ∈ ctx.calibration_image_types)
    (hI : inst ∈ instruments)
    (hdelay : 0 ≤ lookup_delay ctx frame_type)
    (hne : filter_calibration_blocks_for_type blocks frame_type ≠ []) :
    ((schedule_calibration_stacking ctx instruments blocks min_date max_date now).filter
        (fun t => t.instrument_id == inst.id && t.frame_type == frame_type))
      = [{ min_date := min_date, max_date := max_date, instrument_id := inst.id,
           frame_type := frame_type,
           blocks := filter_calibration_blocks_for_type blocks frame_type,
           countdown := max 0 (latest_block_end
               (filter_calibration_blocks_for_type blocks frame_type)
             + lookup_delay ctx frame_type - now) }]
    ∧ ((∀ b ∈ filter_calibration_blocks_for_type blocks frame_type,
          b.blockEnd + lookup_delay ctx frame_type ≤ now) →
        max 0 (latest_block_end (filter_calibration_blocks_for_type blocks frame_type)
          + lookup_delay ctx frame_type - now) = 0)
    ∧ (now < latest_block_end (filter_calibration_blocks_for_type blocks frame_type) →
        max 0 (latest_block_end (filter_calibration_blocks_for_type blocks frame_type)
          + lookup_delay ctx frame_type - now)
        = (latest_block_end (filter_calibration_blocks_for_type blocks frame_type) - now)
          + lookup_delay ctx frame_type) := by
  refine ⟨?_, fun hpast => ?_, fun hfut => ?_⟩
  · rw [← List.filter_filter]
    show ((schedule_for_types ctx.calibration_image_types ctx instruments blocks
        min_date max_date now).filter (fun t => t.frame_type == frame_type)).filter
        (fun t => t.instrument_id == inst.id) = _
    rw [schedule_for_types_filter_eq ctx.calibration_image_types ctx instruments blocks
      min_date max_date now frame_type htypes hT]
    rw [if_neg (by simpa [List.isEmpty_iff] using hne)]
    rw [filter_map_eq]
    have hpred : (instruments.filter fun a =>
        (({ min_date := min_date, max_date := max_date, instrument_id := a.id,
            frame_type := frame_type,
            blocks := filter_calibration_blocks_for_type blocks frame_type,
            countdown := max 0 (latest_block_end
                (filter_calibration_blocks_for_type blocks frame_type)
              + lookup_delay ctx frame_type - now) } : StackTask).instrument_id == inst.id))
        = instruments.filter (fun i => i.id == inst.id) := rfl
    rw [hpred, filter_by_id_singleton instruments inst hids hI]
    rfl
  · have hlat : latest_block_end (filter_calibration_blocks_for_type blocks frame_type)
        ≤ now - lookup_delay ctx frame_type := by
      refine latest_block_end_le _ _ hne fun b hb => ?_
      have := hpast b hb
      omega
    have : latest_block_end (filter_calibration_blocks_for_type blocks frame_type)
        + lookup_delay ctx frame_type - now ≤ 0 := by omega
    omega
  · have : 0 ≤ latest_block_end (filter_calibration_blocks_for_type blocks frame_type)
        + lookup_delay ctx frame_type - now := by omega
    omega

theorem schedule_countdown_formula_witness :
    ((schedule_calibration_stacking
        { calibration_image_types := ["BIAS"], calibration_stack_delays := [("BIAS", 300)] }
        [{ id := 1, site := "coj", camera := "fa14" }]
        [{ site := "coj", start := 0, blockEnd := 100,
           configurations := some [{ ctype := "BIAS" }] }]
        0 200 50).filter (fun t => t.instrument_id == 1 && t.frame_type == "BIAS"))
      = [{ min_date := 0, max_date := 200, instrument_id := 1, frame_type := "BIAS",
           blocks := [{ site := "coj", start := 0, blockEnd := 100,
                        configurations := some [{ ctype := "BIAS" }] }],
           countdown := 350 }] :=
  (schedule_countdown_formula
    { calibration_image_types := ["BIAS"], calibration_stack_delays := [("BIAS", 300)] }
    [{ id := 1, site := "coj", camera := "fa14" }]
    [{ site := "coj", start := 0, blockEnd := 100,
       configurations := some [{ ctype := "BIAS" }] }]
    0 200 50 "BIAS" { id := 1, site := "coj", camera := "fa14" }
    (by decide) (by decide) (by decide) (by decide) (by decide) (by decide)).1

/-- The claim as frozen is refuted here: every filtered block ends in the
past (block end 100, now 110), yet the enqueued countdown is 290, not 0,
because the block ended less than the 300-second type delay ago. -/
theorem schedule_countdown_past_counterexample :
    (∀ b ∈ filter_calibration_blocks_for_type
        [{ site := "coj", start := 0, blockEnd := 100,
           configurations := some [{ ctype := "BIAS" }] }] "BIAS",
      b.blockEnd < (110 : Int))
    ∧ ((schedule_calibration_stacking
        { calibration_image_types := ["BIAS"], calibration_stack_delays := [("BIAS", 300)] }
        [{ id := 1, site := "coj", camera := "fa14" }]
        [{ site := "coj", start := 0, blockEnd := 100,
           configurations := some [{ ctype := "BIAS" }] }]
        0 200 110).map StackTask.countdown) = [290] := by
  decide

theorem schedule_for_types_empty_filter (types : List String) (ctx : SchedContext)
    (instruments : List Instrument) (blocks : List ObservationBlock)
    (min_date max_date now : Int) (frame_type : String)
    (h : filter_calibration_blocks_for_type blocks frame_type = []) :
    (schedule_for_types types ctx instruments blocks min_date max_date now).filter
      (fun t => t.frame_type == frame_type) = [] := by
  induction types with
  | nil => rfl
  | cons T rest ih =>
    show (((if (filter_calibration_blocks_for_type blocks T).isEmpty then []
        else instruments.map _) ++ _).filter _) = []
    rw [List.filter_append, ih, List.append_nil]
    by_cases hTf : T = frame_type
    · subst hTf
      rw [h]
      rfl
    · split
      · rfl
      · rw [List.filter_eq_nil_iff]
        intro t ht
        rcases List.mem_map.mp ht with ⟨inst, -, rfl⟩
        simpa using hTf

/-- C6: for every context, window and current time, if the block list
filtered to a frame type is empty, the scheduler enqueues zero stacking
tasks for that type (the type is skipped). -/
theorem schedule_empty_filter_no_tasks (ctx : SchedContext)
    (instruments : List Instrument) (blocks : List ObservationBlock)
    (min_date max_date now : Int) (frame_type : String)
    (h : filter_calibration_blocks_for_type blocks frame_type = []) :
    (schedule_calibration_stacking ctx instruments blocks min_date max_date now).filter
      (fun t => t.frame_type == frame_type) = [] :=
  schedule_for_types_empty_filter ctx.calibration_image_types ctx instruments blocks
    min_date max_date now frame_type h

theorem schedule_empty_filter_no_tasks_witness :
    (schedule_calibration_stacking
        { calibration_image_types := ["BIAS", "SKY_FLAT"],
          calibration_stack_delays := [("BIAS", 300), ("SKY_FLAT", 300)] }
        [{ id := 1, site := "coj", camera := "fa14" }]
        [{ site := "coj", start := 0, blockEnd := 100,
           configurations := some [{ ctype := "SKY_FLAT" }] }]
        0 200 50).filter (fun t => t.frame_type == "BIAS") = [] :=
  schedule_empty_filter_no_tasks
    { calibration_image_types := ["BIAS", "SKY_FLAT"],
      calibration_stack_delays := [("BIAS", 300), ("SKY_FLAT", 300)] }
    [{ id := 1, site := "coj", camera := "fa14" }]
    [{ site := "coj", start := 0, blockEnd := 100,
       configurations := some [{ ctype := "SKY_FLAT" }] }]
    0 200 50 "BIAS" (by decide)

/-- A record of the `calimages`-style catalog as the stacking task queries
it: raw (individual) and master calibration frames, distinguished by
`is_master`, owned by an instrument, with an observation timestamp. -/
structure CalibrationImageRecord where
  ctype : String
  filename : String
  is_master : Bool
  instrument_id : Nat
  dateobs : Int
  deriving Repr, DecidableEq

/-- Modelled from the spec: the catalog query
`get_individual_calibration_image_records(instrument_id, frame_type,
min_date, max_date)` of spec 4.4 — the individual (non-master) calibration
images of the frame type belonging to the instrument within
`[min_date, max_date)`. -/
def get_individual_calibration_image_records (catalog : List CalibrationImageRecord)
    (instrument_id : Nat) (frame_type : String) (min_date max_date : Int) :
    List CalibrationImageRecord :=
  catalog.filter fun r =>
    !r.is_master && r.instrument_id == instrument_id && r.ctype == frame_type
      && decide (min_date ≤ r.dateobs) && decide (r.dateobs < max_date)

/-- The tagged result of a stacking task body (spec 9: `Success | Retry |
FatalError`; the queue adapter turns `retry_scheduled` into the Celery
`Retry` signal with backoff and `failed_fatal` into a logged drop). -/
inductive TaskResult where
  | success
  | retry_scheduled
  | failed_fatal
  deriving Repr, DecidableEq

/-- One invocation of the external Master Frame Builder, with the arguments
the task passes it. -/
structure MasterCall where
  instrument : Instrument
  frame_type : String
  min_date : Int
  max_date : Int
  deriving Repr, DecidableEq

/-- Modelled from the spec: the body of the stacking task
`stack_calibrations` (`banzai/celery.py` is not a repository file), per
spec 4.3: resolve the instrument id against the registry (fatal when
absent); query the catalog for individual images of the type in the window;
raise the retryable condition when below the minimum-image threshold;
otherwise invoke the Master Frame Builder once with the instrument, frame
type and date range. The externals (registry, catalog) are injected as list
arguments; the returned list collects the Master Frame Builder invocations. -/
def stack_calibrations (min_date max_date : Int) (instrument_id : Nat)
    (frame_type : String) (blocks : List ObservationBlock) (min_images : Nat)
    (registry : List Instrument) (catalog : List CalibrationImageRecord) :
    TaskResult × List MasterCall :=
  match registry.find? (fun i => i.id == instrument_id) with
  | none => (TaskResult.failed_fatal, [])
  | some instrument =>
    let images := get_individual_calibration_image_records catalog instrument_id
      frame_type min_date max_date
    if images.length < min_images then
      (TaskResult.retry_scheduled, [])
    else
      (TaskResult.success, [{ instrument := instrument, frame_type := frame_type,
                              min_date := min_date, max_date := max_date }])

/-- C2: when the resolved stacking task finds fewer qualifying individual
calibration images than the minimum threshold, it ends in the retryable
condition (re-armed with backoff, not abandoned and not fatal) and the
Master Frame Builder is never invoked. -/
theorem stack_retry_below_threshold (min_date max_date : Int) (instrument_id : Nat)
    (frame_type : String) (blocks : List ObservationBlock) (min_images : Nat)
    (registry : List Instrument) (catalog : List CalibrationImageRecord)
    (inst : Instrument)
    (hinst : registry.find? (fun i => i.id == instrument_id) = some inst)
    (hlen : (get_individual_calibration_image_records catalog instrument_id
        frame_type min_date max_date).length < min_images) :
    stack_calibrations min_date max_date instrument_id frame_type blocks min_images
        registry catalog = (TaskResult.retry_scheduled, []) := by
  unfold stack_calibrations
  rw [hinst]
  simp only [if_pos hlen]

theorem stack_retry_below_threshold_witness :
    stack_calibrations 0 200 1 "BIAS" [] 2
        [{ id := 1, site := "coj", camera := "fa14" }]
        [{ ctype := "BIAS", filename := "b1.fits", is_master := false,
           instrument_id := 1, dateobs := 10 }]
      = (TaskResult.retry_scheduled, []) :=
  stack_retry_below_threshold 0 200 1 "BIAS" [] 2
    [{ id := 1, site := "coj", camera := "fa14" }]
    [{ ctype := "BIAS", filename := "b1.fits", is_master := false,
       instrument_id := 1, dateobs := 10 }]
    { id := 1, site := "coj", camera := "fa14" } (by decide) (by decide)

/-- C3: when the resolved stacking task finds at least the threshold number
of qualifying individual calibration images, it invokes the Master Frame
Builder exactly once, passing the resolved instrument, the frame type,
`min_date` and `max_date`, and succeeds. -/
theorem stack_invokes_master_once (min_date max_date : Int) (instrument_id : Nat)
    (frame_type : String) (blocks : List ObservationBlock) (min_images : Nat)
    (registry : List Instrument) (catalog : List CalibrationImageRecord)
    (inst : Instrument)
    (hinst : registry.find? (fun i => i.id == instrument_id) = some inst)
    (hlen : min_images ≤ (get_individual_calibration_image_records catalog instrument_id
        frame_type min_date max_date).length) :
    stack_calibrations min_date max_date instrument_id frame_type blocks min_images
        registry catalog
      = (TaskResult.success, [{ instrument := inst, frame_type := frame_type,
                                min_date := min_date, max_date := max_date }]) := by
  unfold stack_calibrations
  rw [hinst]
  simp only [if_neg (Nat.not_lt.mpr hlen)]

theorem stack_invokes_master_once_witness :
    stack_calibrations 0 200 1 "BIAS" [] 2
        [{ id := 1, site := "coj", camera := "fa14" }]
        [{ ctype := "BIAS", filename := "b1.fits", is_master := false,
           instrument_id := 1, dateobs := 10 },
         { ctype := "BIAS", filename := "b2.fits", is_master := false,
           instrument_id := 1, dateobs := 20 }]
      = (TaskResult.success,
         [{ instrument := { id := 1, site := "coj", camera := "fa14" },
            frame_type := "BIAS", min_date := 0, max_date := 200 }]) :=
  stack_invokes_master_once 0 200 1 "BIAS" [] 2
    [{ id := 1, site := "coj", camera := "fa14" }]
    [{ ctype := "BIAS", filename := "b1.fits", is_master := false,
       instrument_id := 1, dateobs := 10 },
     { ctype := "BIAS", filename := "b2.fits", is_master := false,
       instrument_id := 1, dateobs := 20 }]
    { id := 1, site := "coj", camera := "fa14" } (by decide) (by decide)

/-- C7: when the stacking task cannot resolve its instrument id in the
registry, it fails fatally — not the retryable condition — and the Master
Frame Builder is never invoked. -/
theorem stack_unknown_instrument_fatal (min_date max_date : Int) (instrument_id : Nat)
    (frame_type : String) (blocks : List ObservationBlock) (min_images : Nat)
    (registry : List Instrument) (catalog : List CalibrationImageRecord)
    (hinst : registry.find? (fun i => i.id == instrument_id) = none) :
    stack_calibrations min_date max_date instrument_id frame_type blocks min_images
        registry catalog = (TaskResult.failed_fatal, [])
    ∧ (stack_calibrations min_date max_date instrument_id frame_type blocks min_images
        registry catalog).1 ≠ TaskResult.retry_scheduled := by
  have heq : stack_calibrations min_date max_date instrument_id frame_type blocks
      min_images registry catalog = (TaskResult.failed_fatal, []) := by
    unfold stack_calibrations
    rw [hinst]
  exact ⟨heq, by rw [heq]; decide⟩

theorem stack_unknown_instrument_fatal_witness :
    stack_calibrations 0 200 7 "BIAS" [] 2
        [{ id := 1, site := "coj", camera := "fa14" }]
        [{ ctype := "BIAS", filename := "b1.fits", is_master := false,
           instrument_id := 1, dateobs := 10 }]
      = (TaskResult.failed_fatal, [])
    ∧ (stack_calibrations 0 200 7 "BIAS" [] 2
        [{ id := 1, site := "coj", camera := "fa14" }]
        [{ ctype := "BIAS", filename := "b1.fits", is_master := false,
           instrument_id := 1, dateobs := 10 }]).1 ≠ TaskResult.retry_scheduled :=
  stack_unknown_instrument_fatal 0 200 7 "BIAS" [] 2
    [{ id := 1, site := "coj", camera := "fa14" }]
    [{ ctype := "BIAS", filename := "b1.fits", is_master := false,
       instrument_id := 1, dateobs := 10 }]
    (by decide)

/-- A row of the `calimages` table (`CalibrationImage` in
`src/pylcogt/dbs.py`): type, filename (unique column), filepath,
observation day, binning descriptor, filter and owning telescope.
`dayobs` is modelled as an integer day number. -/
structure CalibrationImage where
  ctype : String
  filename : String
  filepath : String
  dayobs : Int
  ccdsum : String
  filter_name : String
  telescope_id : Nat
  deriving Repr, DecidableEq

/-- The `image_config` argument of `save_calibration_info`: the image whose
epoch, ccdsum, filter and telescope id are copied into the catalog row. -/
structure ImageConfig where
  epoch : Int
  ccdsum : String
  filter : String
  telescope_id : Nat
  deriving Repr, DecidableEq

def basename_chars : List Char → List Char → List Char
  | [], acc => acc.reverse
  | c :: cs, acc => if c = '/' then basename_chars cs [] else basename_chars cs (c :: acc)

/-- `os.path.basename`: the part of the path after the last slash. -/
def basename (path : String) : String :=
  String.mk (basename_chars path.data [])

/-- `os.path.dirname`: the part of the path before the last slash. -/
def dirname (path : String) : String :=
  match path.data.reverse.dropWhile (fun c => !(c = '/')) with
  | [] => ""
  | _ :: rest => String.mk rest.reverse

/-- `str.upper()` (per character, as the type names are ASCII). -/
def str_to_upper (s : String) : String :=
  String.mk (s.data.map Char.toUpper)

/-- The row `save_calibration_info` writes: every column set from the
arguments (`dbs.py` lines 396-402), the type upper-cased. -/
def updated_record (cal_type output_file : String) (image_config : ImageConfig) :
    CalibrationImage :=
  { ctype := str_to_upper cal_type
    filename := basename output_file
    filepath := dirname output_file
    dayobs := image_config.epoch
    ccdsum := image_config.ccdsum
    filter_name := image_config.filter
    telescope_id := image_config.telescope_id }

/-- In-place update of the first row whose filename matches
(`image_query[0]` of `dbs.py`; rows after the first match are untouched). -/
def update_first_matching (rows : List CalibrationImage) (output_filename : String)
    (updated : CalibrationImage) : List CalibrationImage :=
  match rows with
  | [] => []
  | r :: rest =>
    if r.filename == output_filename then updated :: rest
    else r :: update_first_matching rest output_filename updated

/-- Shallow embedding of `save_calibration_info(cal_type, output_file,
image_config)` (`src/pylcogt/dbs.py` lines 379-406): query the calimages
table for rows whose filename equals the basename of the output file; create a
new row when none exists, otherwise update the first matching row; commit.
The session table is modelled as the list of rows in insertion order;
`save_core` is the body once the basename and the written row are computed,
`save_calibration_info` the full call. -/
def save_core (output_filename : String) (updated : CalibrationImage)
    (db : List CalibrationImage) : List CalibrationImage :=
  if (db.filter fun r => r.filename == output_filename).isEmpty then
    db ++ [updated]
  else
    update_first_matching db output_filename updated

def save_calibration_info (cal_type output_file : String) (image_config : ImageConfig)
    (db : List CalibrationImage) : List CalibrationImage :=
  save_core (basename output_file) (updated_record cal_type output_file image_config) db

/-- The upsert key the spec names: (instrument id, frame type,
observation day, configuration signature = binning + filter). -/
def master_key (r : CalibrationImage) : Nat × String × Int × String × String :=
  (r.telescope_id, r.ctype, r.dayobs, r.ccdsum, r.filter_name)

theorem length_update_first_matching (rows : List CalibrationImage)
    (output_filename : String) (updated : CalibrationImage) :
    (update_first_matching rows output_filename updated).length = rows.length := by
  induction rows with
  | nil => rfl
  | cons r rest ih =>
    show (if r.filename == output_filename then _ else _ : List CalibrationImage).length = _
    split
    · rfl
    · show (r :: update_first_matching rest output_filename updated).length = _
      rw [List.length_cons, List.length_cons, ih]

theorem map_filename_update_first_matching (rows : List CalibrationImage)
    (output_filename : String) (updated : CalibrationImage)
    (hu : updated.filename = output_filename) :
    (update_first_matching rows output_filename updated).map CalibrationImage.filename
      = rows.map CalibrationImage.filename := by
  induction rows with
  | nil => rfl
  | cons r rest ih =>
    show ((if r.filename == output_filename then _ else _ : List CalibrationImage)).map _ = _
    by_cases h : (r.filename == output_filename) = true
    · rw [if_pos h]
      show updated.filename :: _ = r.filename :: _
      rw [hu, eq_of_beq h]
    · rw [if_neg (by simp [h])]
      show r.filename :: _ = r.filename :: _
      rw [ih]

theorem update_first_matching_append_no_match (front rows : List CalibrationImage)
    (output_filename : String) (updated : CalibrationImage)
    (h : ∀ r ∈ front, (r.filename == output_filename) = false) :
    update_first_matching (front ++ rows) output_filename updated
      = front ++ update_first_matching rows output_filename updated := by
  induction front with
  | nil => rfl
  | cons r rest ih =>
    have hr : (r.filename == output_filename) = false := h r (List.mem_cons_self r rest)
    have ih2 := ih fun x hx => h x (List.mem_cons_of_mem r hx)
    simp [update_first_matching, hr, ih2]

theorem update_first_matching_idem (rows : List CalibrationImage)
    (output_filename : String) (updated : CalibrationImage)
    (hu : updated.filename = output_filename) :
    update_first_matching (update_first_matching rows output_filename updated)
        output_filename updated
      = update_first_matching rows output_filename updated := by
  induction rows with
  | nil => rfl
  | cons r rest ih =>
    by_cases h : (r.filename == output_filename) = true
    · simp [update_first_matching, h, hu]
    · simp [update_first_matching, h, ih]

theorem mem_update_first_matching_of_match (rows : List CalibrationImage)
    (output_filename : String) (updated : CalibrationImage)
    (h : ∃ r ∈ rows, (r.filename == output_filename) = true) :
    updated ∈ update_first_matching rows output_filename updated := by
  induction rows with
  | nil => rcases h with ⟨r, hr, -⟩; exact absurd hr (List.not_mem_nil r)
  | cons r rest ih =>
    by_cases hr : (r.filename == output_filename) = true
    · simp [update_first_matching, hr]
    · rcases h with ⟨x, hx, hxm⟩
      rcases List.mem_cons.mp hx with rfl | hxrest
      · exact absurd hxm (by simp [hr])
      · simp only [update_first_matching, hr, Bool.false_eq_true, if_false]
        exact List.mem_cons_of_mem r (ih ⟨x, hxrest, hxm⟩)

theorem filter_update_first_matching (rows : List CalibrationImage)
    (output_filename : String) (updated : CalibrationImage)
    (hnd : (rows.map CalibrationImage.filename).Nodup)
    (hex : ∃ r ∈ rows, (r.filename == output_filename) = true)
    (hu : updated.filename = output_filename) :
    (update_first_matching rows output_filename updated).filter
      (fun r => r.filename == output_filename) = [updated] := by
  induction rows with
  | nil => rcases hex with ⟨r, hr, -⟩; exact absurd hr (List.not_mem_nil r)
  | cons r rest ih =>
    rw [List.map_cons, List.nodup_cons] at hnd
    rcases hnd with ⟨hr_not, hrest⟩
    by_cases hr : (r.filename == output_filename) = true
    · simp only [update_first_matching, hr, if_true]
      rw [List.filter_cons_of_pos (by simp [hu])]
      have : (rest.filter fun x => x.filename == output_filename) = [] := by
        rw [List.filter_eq_nil_iff]
        intro x hx hxm
        have hx1 : x.filename = output_filename := eq_of_beq (by simpa using hxm)
        have hr1 : r.filename = output_filename := eq_of_beq hr
        exact hr_not ((hx1.trans hr1.symm) ▸ List.mem_map_of_mem CalibrationImage.filename hx)
      rw [this]
    · simp only [update_first_matching, hr, Bool.false_eq_true, if_false]
      rw [List.filter_cons_of_neg (by simp [hr])]
      rcases hex with ⟨x, hx, hxm⟩
      rcases List.mem_cons.mp hx with rfl | hxrest
      · exact absurd hxm (by simp [hr])
      · exact ih hrest ⟨x, hxrest, hxm⟩

theorem save_core_spec (o : String) (u : CalibrationImage) (db : List CalibrationImage)
    (hu : u.filename = o) (hnd : (db.map CalibrationImage.filename).Nodup) :
    save_core o u (save_core o u db) = save_core o u db
    ∧ ((save_core o u db).filter fun r => r.filename == o) = [u] := by
  by_cases hemp : ((db.filter fun r => r.filename == o).isEmpty) = true
  · have h0 : (db.filter fun r => r.filename == o) = [] := by
      rwa [List.isEmpty_iff] at hemp
    have hall : ∀ r ∈ db, (r.filename == o) = false := by
      intro r hr
      have := List.filter_eq_nil_iff.mp h0 r hr
      simpa using this
    have hdb1 : save_core o u db = db ++ [u] := by
      unfold save_core
      rw [if_pos hemp]
    have hfilter1 : ((db ++ [u]).filter fun r => r.filename == o) = [u] := by
      rw [List.filter_append, h0, List.nil_append]
      simp [List.filter_cons, hu]
    refine ⟨?_, by rw [hdb1, hfilter1]⟩
    rw [hdb1]
    unfold save_core
    rw [if_neg (by simp [hfilter1])]
    rw [update_first_matching_append_no_match db [u] o u hall]
    simp [update_first_matching, hu]
  · have hex : ∃ r ∈ db, (r.filename == o) = true := by
      rcases hne : db.filter (fun r => r.filename == o) with - | ⟨x, xs⟩
      · exact absurd (by rw [List.isEmpty_iff]; exact hne) hemp
      · have hxmem : x ∈ db.filter (fun r => r.filename == o) := by
          rw [hne]
          exact List.mem_cons_self x xs
        have := List.mem_filter.mp hxmem
        exact ⟨x, this.1, this.2⟩
    have hdb1 : save_core o u db = update_first_matching db o u := by
      unfold save_core
      rw [if_neg hemp]
    have hfil := filter_update_first_matching db o u hnd hex hu
    refine ⟨?_, by rw [hdb1, hfil]⟩
    rw [hdb1]
    unfold save_core
    rw [if_neg (by simp [hfil])]
    exact update_first_matching_idem db o u hu

/-- C5 (amended): `save_calibration_info` upserts keyed by the filename (the
basename of the output file), not by (instrument, type, observation day,
configuration signature): calling it twice with the same arguments — hence
the same filename key and content — leaves exactly one catalog row for that
filename, the second call updating the row the first created. -/
theorem save_calibration_upsert_by_filename (cal_type output_file : String)
    (image_config : ImageConfig) (db : List CalibrationImage)
    (hnd : (db.map CalibrationImage.filename).Nodup) :
    save_calibration_info cal_type output_file image_config
        (save_calibration_info cal_type output_file image_config db)
      = save_calibration_info cal_type output_file image_config db
    ∧ ((save_calibration_info cal_type output_file image_config db).filter
        fun r => r.filename == basename output_file).length = 1 := by
  have h := save_core_spec (basename output_file)
    (updated_record cal_type output_file image_config) db rfl hnd
  refine ⟨h.1, ?_⟩
  show ((save_core (basename output_file) (updated_record cal_type output_file image_config)
      db).filter fun r => r.filename == basename output_file).length = 1
  rw [h.2]
  rfl

theorem save_calibration_upsert_by_filename_witness :
    save_calibration_info "bias" "/data/a.fits"
        { epoch := 10, ccdsum := "1 1", filter := "w", telescope_id := 3 }
        (save_calibration_info "bias" "/data/a.fits"
          { epoch := 10, ccdsum := "1 1", filter := "w", telescope_id := 3 } [])
      = save_calibration_info "bias" "/data/a.fits"
          { epoch := 10, ccdsum := "1 1", filter := "w", telescope_id := 3 } []
    ∧ ((save_calibration_info "bias" "/data/a.fits"
          { epoch := 10, ccdsum := "1 1", filter := "w", telescope_id := 3 } []).filter
        fun r => r.filename == basename "/data/a.fits").length = 1 :=
  save_calibration_upsert_by_filename "bias" "/data/a.fits"
    { epoch := 10, ccdsum := "1 1", filter := "w", telescope_id := 3 } [] (by decide)

/-- The claim as frozen is refuted here: two calls agreeing on the key
(telescope 3, type BIAS, day 10, binning and filter) but writing different
output filenames leave two catalog rows for that key, because the code
queries by filename only (`dbs.py` line 385), not by the key the spec
names. -/
theorem save_calibration_key_counterexample :
    ((save_calibration_info "bias" "/data/b.fits"
        { epoch := 10, ccdsum := "1 1", filter := "w", telescope_id := 3 }
        (save_calibration_info "bias" "/data/a.fits"
          { epoch := 10, ccdsum := "1 1", filter := "w", telescope_id := 3 } [])).filter
      fun r => master_key r == (3, "BIAS", 10, "1 1", "w")).length = 2 := by
  decide

/-- C8: `save_calibration_info` preserves uniqueness of `filename` in the
calimages table: starting from a table with pairwise-distinct filenames, it
updates the first (unique) row carrying the output basename when one
exists, and appends a fresh row only when none does, so filenames stay
pairwise distinct and the row count grows only in the fresh case. -/
theorem save_calibration_filename_unique (cal_type output_file : String)
    (image_config : ImageConfig) (db : List CalibrationImage)
    (hnd : (db.map CalibrationImage.filename).Nodup) :
    ((save_calibration_info cal_type output_file image_config db).map
        CalibrationImage.filename).Nodup
    ∧ (save_calibration_info cal_type output_file image_config db).length
      = (if (db.filter fun r => r.filename == basename output_file).isEmpty
         then db.length + 1 else db.length) := by
  show ((save_core (basename output_file) (updated_record cal_type output_file image_config)
      db).map CalibrationImage.filename).Nodup
    ∧ (save_core (basename output_file) (updated_record cal_type output_file image_config)
        db).length = _
  by_cases hemp : ((db.filter fun r => r.filename == basename output_file).isEmpty) = true
  · have h0 : (db.filter fun r => r.filename == basename output_file) = [] := by
      rwa [List.isEmpty_iff] at hemp
    have hnotmem : basename output_file ∉ db.map CalibrationImage.filename := by
      intro hmem
      rcases List.mem_map.mp hmem with ⟨r, hr, hfr⟩
      have := List.filter_eq_nil_iff.mp h0 r hr
      exact this (by rw [hfr]; exact beq_self_eq_true (basename output_file))
    constructor
    · unfold save_core
      rw [if_pos hemp, List.map_append]
      refine List.Nodup.append hnd (List.nodup_singleton _) ?_
      intro a ha hb
      rcases List.mem_singleton.mp hb with rfl
      exact hnotmem ha
    · unfold save_core
      rw [if_pos hemp, if_pos hemp, List.length_append]
      rfl
  · constructor
    · unfold save_core
      rw [if_neg hemp,
        map_filename_update_first_matching db (basename output_file)
          (updated_record cal_type output_file image_config) rfl]
      exact hnd
    · unfold save_core
      rw [if_neg hemp, if_neg hemp, length_update_first_matching]

theorem save_calibration_filename_unique_witness :
    ((save_calibration_info "bias" "/data/a.fits"
        { epoch := 10, ccdsum := "1 1", filter := "w", telescope_id := 3 }
        [{ ctype := "BIAS", filename := "old.fits", filepath := "/data", dayobs := 9,
           ccdsum := "1 1", filter_name := "w", telescope_id := 3 }]).map
        CalibrationImage.filename).Nodup
    ∧ (save_calibration_info "bias" "/data/a.fits"
        { epoch := 10, ccdsum := "1 1", filter := "w", telescope_id := 3 }
        [{ ctype := "BIAS", filename := "old.fits", filepath := "/data", dayobs := 9,
           ccdsum := "1 1", filter_name := "w", telescope_id := 3 }]).length
      = (if (([({ ctype := "BIAS", filename := "old.fits", filepath := "/data", dayobs := 9,
                  ccdsum := "1 1", filter_name := "w",
                  telescope_id := 3 } : CalibrationImage)]).filter
            fun r => r.filename == basename "/data/a.fits").isEmpty
         then 2 else 1) :=
  save_calibration_filename_unique "bias" "/data/a.fits"
    { epoch := 10, ccdsum := "1 1", filter := "w", telescope_id := 3 }
    [{ ctype := "BIAS", filename := "old.fits", filepath := "/data", dayobs := 9,
       ccdsum := "1 1", filter_name := "w", telescope_id := 3 }] (by decide)

/-- A row of the `telescopes` table (`Telescope` in `src/pylcogt/dbs.py`). -/
structure Telescope where
  id : Nat
  site : String
  instrument : String
  camera_type : String
  deriving Repr, DecidableEq

/-- Shallow embedding of `get_telescope_id(site, instrument)`
(`src/pylcogt/dbs.py` lines 359-365): filter the telescopes table on site
and instrument and take `.first()`; the AttributeError raised by
`telescope.id` when no row matches is modelled as `none`. -/
def get_telescope_id (db : List Telescope) (site instrument : String) : Option Nat :=
  ((db.filter fun t => t.site == site && t.instrument == instrument).head?).map Telescope.id

/-- The slice of the `Image` constructor state that depends on the
telescope lookup. -/
structure ImageRecord where
  site : String
  instrument : String
  telescope_id : Nat
  deriving Repr, DecidableEq

/-- Shallow embedding of the telescope-id assignment in `Image.__init__`
(`src/pylcogt/utils/images.py` line 23): the constructor sets
`telescope_id = dbs.get_telescope_id(site, instrument)`, so the
AttributeError for an unregistered telescope propagates out of the
constructor — modelled as `none`. -/
def image_init (db : List Telescope) (site instrument : String) : Option ImageRecord :=
  (get_telescope_id db site instrument).map fun tid =>
    { site := site, instrument := instrument, telescope_id := tid }

theorem head_filter_eq_find {α : Type} (p : α → Bool) (l : List α) :
    (l.filter p).head? = l.find? p := by
  induction l with
  | nil => rfl
  | cons a l ih =>
    by_cases h : p a = true
    · simp [List.filter_cons, List.find?_cons, h]
    · simp [List.filter_cons, List.find?_cons, h, ih]

/-- C9: `get_telescope_id` returns the id of the first telescopes row
matching (site, instrument); when no row matches it produces no value (the
source raises AttributeError on `None.id`), so `Image.__init__` crashes
exactly when the (site, instrument) pair has no row. -/
theorem get_telescope_id_first_match (db : List Telescope) (site instrument : String) :
    get_telescope_id db site instrument
      = (db.find? fun t => t.site == site && t.instrument == instrument).map Telescope.id
    ∧ (image_init db site instrument).isNone
      = (db.filter fun t => t.site == site && t.instrument == instrument).isEmpty := by
  constructor
  · unfold get_telescope_id
    rw [head_filter_eq_find]
  · unfold image_init get_telescope_id
    rcases hf : (db.filter fun t => t.site == site && t.instrument == instrument)
      with - | ⟨x, xs⟩
    · rw [hf]
      rfl
    · rw [hf]
      rfl

/-- A header value: FITS string or numeric card (numeric values are
modelled as integers; the range checks only compare them). -/
inductive HeaderValue where
  | strval : String → HeaderValue
  | numval : Int → HeaderValue
  deriving Repr, DecidableEq

/-- An image as the header-sanity stage sees it: its header, a keyword to
value association in card order. -/
structure HeaderImage where
  header : List (String × HeaderValue)
  deriving Repr, DecidableEq

/-- `keyword in image.header` / `image.header[keyword]` lookup. -/
def header_get (image : HeaderImage) (keyword : String) : Option HeaderValue :=
  image.header.lookup keyword

/-- The numeric reading of a header value used by the range checks. -/
def header_num : HeaderValue → Int
  | HeaderValue.strval _ => 0
  | HeaderValue.numval n => n

/-- A value recorded by `save_qc_results`. -/
inductive QCValue where
  | boolval : Bool → QCValue
  | numval : Int → QCValue
  | namesval : List String → QCValue
  deriving Repr, DecidableEq

/-- The external effects of the stage: `logger.error` lines and
`save_qc_results` entries, in emission order. -/
structure StageEffects where
  log_errors : List String
  qc_results : List (String × QCValue)
  deriving Repr, DecidableEq

def se_append (a b : StageEffects) : StageEffects :=
  { log_errors := a.log_errors ++ b.log_errors,
    qc_results := a.qc_results ++ b.qc_results }

/-- `HeaderSanity.expected_header_keywords`
(`src/banzai/qc/header_checker.py` lines 23-27). -/
def expected_header_keywords : List String :=
  ["RA", "DEC", "CAT-RA", "CAT-DEC", "OFST-RA", "OFST-DEC", "TPT-RA",
   "TPT-DEC", "PM-RA", "PM-DEC", "CRVAL1", "CRVAL2", "CRPIX1", "CRPIX2", "EXPTIME"]

def RA_MIN : Int := 0

def RA_MAX : Int := 360

def DEC_MIN : Int := -90

def DEC_MAX : Int := 90

/-- `check_keywords_missing_or_na`: collects the expected keywords that are
missing from the header or carry the string N/A, logs one error line per
such keyword, records the QC summary, and returns the bad keyword list
(missing then N/A, each in keyword order, as the source builds them). -/
def check_keywords_missing_or_na (image : HeaderImage) : List String × StageEffects :=
  let missing_keywords := expected_header_keywords.filter fun k =>
    (header_get image k).isNone
  let na_keywords := expected_header_keywords.filter fun k =>
    decide (header_get image k = some (HeaderValue.strval "N/A"))
  let are_keywords_missing := decide (missing_keywords.length > 0)
  let are_keywords_na := decide (na_keywords.length > 0)
  (missing_keywords ++ na_keywords,
   { log_errors :=
       (missing_keywords.map fun k => "The header key " ++ k ++ " is not in image header!")
       ++ (na_keywords.map fun k =>
         "The header key " ++ k ++ " got the unexpected value : N/A"),
     qc_results :=
       [("header.keywords.missing.failed", QCValue.boolval are_keywords_missing),
        ("header.keywords.na.failed", QCValue.boolval are_keywords_na)]
       ++ (if are_keywords_missing
           then [("header.keywords.missing.names", QCValue.namesval missing_keywords)]
           else [])
       ++ (if are_keywords_na
           then [("header.keywords.na.names", QCValue.namesval na_keywords)]
           else []) })

/-- `check_ra_range`: skipped when CRVAL1 is a bad keyword; otherwise logs
when CRVAL1 is outside [RA_MIN, RA_MAX] and records the QC result. -/
def check_ra_range (image : HeaderImage) (bad_keywords : List String) : StageEffects :=
  if "CRVAL1" ∈ bad_keywords then { log_errors := [], qc_results := [] }
  else
    let ra_value := header_num ((header_get image "CRVAL1").getD (HeaderValue.numval 0))
    let is_bad_ra_value := decide (ra_value > RA_MAX) || decide (ra_value < RA_MIN)
    { log_errors :=
        if is_bad_ra_value
        then ["The header CRVAL1 key got the unexpected value : " ++ toString ra_value]
        else [],
      qc_results := [("header.ra.failed", QCValue.boolval is_bad_ra_value),
                     ("header.ra.value", QCValue.numval ra_value)] }

/-- `check_dec_range`: as `check_ra_range` for CRVAL2 in [DEC_MIN, DEC_MAX]. -/
def check_dec_range (image : HeaderImage) (bad_keywords : List String) : StageEffects :=
  if "CRVAL2" ∈ bad_keywords then { log_errors := [], qc_results := [] }
  else
    let dec_value := header_num ((header_get image "CRVAL2").getD (HeaderValue.numval 0))
    let is_bad_dec_value := decide (dec_value > DEC_MAX) || decide (dec_value < DEC_MIN)
    { log_errors :=
        if is_bad_dec_value
        then ["The header CRVAL2 key got the unexpected value : " ++ toString dec_value]
        else [],
      qc_results := [("header.dec.failed", QCValue.boolval is_bad_dec_value),
                     ("header.dec.value", QCValue.numval dec_value)] }

/-- `check_exptime_value`: skipped when EXPTIME or OBSTYPE is a bad keyword
(OBSTYPE never is, not being an expected keyword); otherwise it reads
`image.header[OBSTYPE]` unguarded, which raises KeyError when the keyword
is absent — modelled as the error case. For a non-BIAS frame it flags a
non-positive exposure time. -/
def check_exptime_value (image : HeaderImage) (bad_keywords : List String) :
    Except String StageEffects :=
  if "EXPTIME" ∈ bad_keywords ∨ "OBSTYPE" ∈ bad_keywords then
    Except.ok { log_errors := [], qc_results := [] }
  else
    let exptime_value := header_num ((header_get image "EXPTIME").getD (HeaderValue.numval 0))
    match header_get image "OBSTYPE" with
    | none => Except.error "KeyError: OBSTYPE"
    | some obstype =>
      if obstype ≠ HeaderValue.strval "BIAS" then
        let is_exptime_null := decide (exptime_value ≤ 0)
        Except.ok
          { log_errors :=
              if is_exptime_null
              then ["The header EXPTIME key got the unexpected value "
                ++ toString exptime_value ++ ":null or negative value"]
              else [],
            qc_results := [("header.exptime.value", QCValue.numval exptime_value),
                           ("header.exptime.failed", QCValue.boolval is_exptime_null)] }
      else
        Except.ok { log_errors := [],
                    qc_results := [("header.exptime.value", QCValue.numval exptime_value)] }

/-- The per-image body of `HeaderSanity.do_stage`: the four checks in
source order, threading the bad keyword list, accumulating effects. -/
def check_image (image : HeaderImage) : Except String StageEffects :=
  let kw := check_keywords_missing_or_na image
  let e2 := check_ra_range image kw.1
  let e3 := check_dec_range image kw.1
  match check_exptime_value image kw.1 with
  | Except.error e => Except.error e
  | Except.ok e4 => Except.ok (se_append (se_append (se_append kw.2 e2) e3) e4)

def run_checks : List HeaderImage → Except String StageEffects
  | [] => Except.ok { log_errors := [], qc_results := [] }
  | image :: rest =>
    match check_image image with
    | Except.error e => Except.error e
    | Except.ok eff =>
      match run_checks rest with
      | Except.error e => Except.error e
      | Except.ok effs => Except.ok (se_append eff effs)

/-- Shallow embedding of `HeaderSanity.do_stage`
(`src/banzai/qc/header_checker.py` lines 33-54): loop the checks over the
images, then `return images`; an uncaught exception from a check is the
error case, in which no list is returned. -/
def do_stage (images : List HeaderImage) :
    Except String (List HeaderImage × StageEffects) :=
  (run_checks images).map fun eff => (images, eff)

/-- C10 (amended): whenever `HeaderSanity.do_stage` returns, it returns
exactly its input image list — same images, same order — however many
checks failed; the checks only emit log lines and QC results. (When an
image whose EXPTIME is present lacks OBSTYPE, the stage raises KeyError
instead of returning, see the counterexample.) -/
theorem header_sanity_returns_input (images : List HeaderImage)
    (result : List HeaderImage × StageEffects)
    (h : do_stage images = Except.ok result) :
    result.1 = images := by
  unfold do_stage at h
  rcases hr : run_checks images with e | eff
  · rw [hr] at h
    exact absurd h (by simp [Except.map])
  · rw [hr] at h
    simp only [Except.map] at h
    have h2 : (images, eff) = result := Except.ok.inj h
    rw [← h2]

def hs_empty_effects : StageEffects :=
  match run_checks [{ header := [] }] with
  | Except.ok eff => eff
  | Except.error _ => { log_errors := [], qc_results := [] }

theorem header_sanity_returns_input_witness :
    (([({ header := [] } : HeaderImage)], hs_empty_effects) :
        List HeaderImage × StageEffects).1 = [({ header := [] } : HeaderImage)] :=
  header_sanity_returns_input [{ header := [] }]
    ([{ header := [] }], hs_empty_effects) (by rfl)

/-- The claim as frozen is refuted here: an image carrying every expected
keyword with numeric value 1 but no OBSTYPE keyword makes `do_stage` raise
KeyError (the unguarded `image.header[OBSTYPE]` access in
`check_exptime_value`) instead of returning the input list. -/
theorem header_sanity_keyerror_counterexample :
    do_stage [{ header := expected_header_keywords.map fun k => (k, HeaderValue.numval 1) }]
      = Except.error "KeyError: OBSTYPE" := by
  rfl
